import Mathlib

/-!
Verification of `src/pihole-control.py`, a Raspberry Pi push-button controller
for Pi-hole.  The script wires a GPIO push button to a toggle of Pi-hole's
enabled/disabled state, drives a status LED, polls the state to track external
changes, and runs a shutdown sequence in a `finally` block.

The shallow embedding below translates the script's functions into pure Lean
functions.  Process-wide mutable state (the Pi-hole state as seen through the
`pihole` command, the LED output level, the `threading.Event` flag
`buttonEvent`, and the `shutdown` boolean) is modelled as an explicit `World`
record threaded through each function.  Side effects that matter to the claims
(oracle queries, enable/disable commands, LED writes, clearing the event flag)
are additionally recorded as an ordered `List Action` trace, in the exact order
the Python statements execute them.
-/

namespace PiHoleControl

/-- Character-list helper for Python's substring test: `listHasPrefixChars hay sub`
is `true` iff `sub` is an initial segment of `hay`. -/
def listHasPrefixChars : List Char → List Char → Bool
  | _, [] => true
  | [], _ :: _ => false
  | c :: cs, d :: ds => (c == d) && listHasPrefixChars cs ds

/-- Python's `sub in hay` on strings, over character lists: `true` iff `sub`
occurs contiguously somewhere in `hay`. -/
def pyInChars : List Char → List Char → Bool
  | [], sub => listHasPrefixChars [] sub
  | c :: t, sub => listHasPrefixChars (c :: t) sub || pyInChars t sub

/-- Python's `sub in hay` membership test on strings. -/
def pyInStr (sub hay : String) : Bool :=
  pyInChars hay.toList sub.toList

/-- Embeds `isPiHoleEnabled` (lines 36-43): runs `pihole status` and returns
`"Enabled" in p.communicate()[0]`.  The raw standard output of the command is
the argument; the function returns a plain `Bool`, with no failure outcome. -/
def isPiHoleEnabled (statusOutput : String) : Bool :=
  pyInStr "Enabled" statusOutput

/-- The GPIO level written to the status LED for a given enabled state:
`setStatusEnabled` writes `False` (LED off), `setStatusDisabled` writes `True`
(LED on), lines 61-71. -/
def statusLedLevel (enabled : Bool) : Bool :=
  if enabled then false else true

/-- Observable side effects of the worker and the toggle path, in execution
order. -/
inductive Action
  | queryOracle (result : Bool)
  | cmdEnable
  | cmdDisable
  | writeLed (level : Bool)
  | clearFlag
deriving DecidableEq

/-- The process-wide mutable state of the script: the true Pi-hole state (as
the `pihole` utility reports and changes it), the LED output level
(`True` = LED on), the `threading.Event` flag `buttonEvent`, and the global
`shutdown` boolean. -/
structure World where
  piholeEnabled : Bool
  ledOn : Bool
  buttonEvent : Bool
  shutdown : Bool
deriving DecidableEq

/-- Embeds `setStatusEnabled` (lines 61-65): `GPIO.output(PIN_STATUS_LED, False)`. -/
def setStatusEnabled (w : World) : World :=
  { w with ledOn := false }

/-- Embeds `setStatusDisabled` (lines 67-71): `GPIO.output(PIN_STATUS_LED, True)`. -/
def setStatusDisabled (w : World) : World :=
  { w with ledOn := true }

/-- Embeds `enablePiHole` (lines 45-51): `subprocess.call(['pihole', 'enable'])`
followed unconditionally by `setStatusEnabled()`.  `cmdOk` models whether the
external `pihole enable` command actually took effect; the Python code ignores
the call's exit status, so the LED write happens either way. -/
def enablePiHole (cmdOk : Bool) (w : World) : World × List Action :=
  let w1 := if cmdOk then { w with piholeEnabled := true } else w
  (setStatusEnabled w1, [Action.cmdEnable, Action.writeLed false])

/-- Embeds `disablePiHole` (lines 53-59): `subprocess.call(['pihole', 'disable'])`
followed unconditionally by `setStatusDisabled()`. -/
def disablePiHole (cmdOk : Bool) (w : World) : World × List Action :=
  let w1 := if cmdOk then { w with piholeEnabled := false } else w
  (setStatusDisabled w1, [Action.cmdDisable, Action.writeLed true])

/-- Embeds `togglePiHoleStatus` (lines 73-82): queries `isPiHoleEnabled()`
fresh at call time, then disables if enabled and enables otherwise.  In the
`World` model a successful fresh query returns the oracle's current truth
`w.piholeEnabled`. -/
def togglePiHoleStatus (cmdOk : Bool) (w : World) : World × List Action :=
  if w.piholeEnabled then
    let r := disablePiHole cmdOk w
    (r.1, Action.queryOracle true :: r.2)
  else
    let r := enablePiHole cmdOk w
    (r.1, Action.queryOracle false :: r.2)

/-- Embeds one iteration of the `pushButtonHandler` loop body (lines 84-93)
from the moment `event.wait()` has returned: check `shutdown` and return if
set (third component `true` = thread terminated), otherwise run
`togglePiHoleStatus()` and only then `event.clear()`. -/
def workerCycle (cmdOk : Bool) (w : World) : World × List Action × Bool :=
  if w.shutdown then (w, [], true)
  else
    let r := togglePiHoleStatus cmdOk w
    ({ r.1 with buttonEvent := false }, r.2 ++ [Action.clearFlag], false)

/-- Embeds `pushButtonGPIOCallback` (lines 100-102): `buttonEvent.set()`. -/
def pushButtonGPIOCallback (w : World) : World :=
  { w with buttonEvent := true }

/-- `n` consecutive interrupt notifications before any consumption. -/
def notifyN : Nat → World → World
  | 0, w => w
  | n + 1, w => pushButtonGPIOCallback (notifyN n w)

/-- Whether an action is an oracle enable/disable command. -/
def isOracleCommand : Action → Bool
  | Action.cmdEnable => true
  | Action.cmdDisable => true
  | _ => false

/-- Whether, in a trace, the event flag is cleared strictly before the first
oracle query. -/
def clearPrecedesQuery : List Action → Bool
  | [] => false
  | Action.clearFlag :: _ => true
  | Action.queryOracle _ :: _ => false
  | _ :: rest => clearPrecedesQuery rest

/-- Poller-local state of `piHoleStatusMonitorTask` (lines 106-120):
`lastState`, a count of "state changed" log lines, and the sequence of LED
levels written, one per tick. -/
structure PollAcc where
  lastState : Bool
  transitions : Nat
  ledWrites : List Bool
deriving DecidableEq

/-- Embeds one iteration of the `piHoleStatusMonitorTask` loop body
(lines 111-120): read `state`, log if it differs from `lastState`, write the
LED from the fresh `state` in all cases, then `lastState = state`. -/
def pollerTick (acc : PollAcc) (state : Bool) : PollAcc :=
  { lastState := state
    transitions := acc.transitions + (if state != acc.lastState then 1 else 0)
    ledWrites := acc.ledWrites ++ [statusLedLevel state] }

/-- The poller loop over a list of fresh per-tick query results, starting from
an initial `lastState` (the read on line 108 before the loop). -/
def pollerRun (initialState : Bool) (ticks : List Bool) : PollAcc :=
  ticks.foldl pollerTick { lastState := initialState, transitions := 0, ledWrites := [] }

/-- A poller tick driven by the raw standard output of `pihole status`, as the
code does via `state = isPiHoleEnabled()` on line 112. -/
def pollerTickFromOutput (acc : PollAcc) (statusOutput : String) : PollAcc :=
  pollerTick acc (isPiHoleEnabled statusOutput)

/-- The enable/disable decision `togglePiHoleStatus` makes from the raw
standard output of its fresh `pihole status` query (line 77). -/
def toggleDecisionFromOutput (statusOutput : String) : Action :=
  if isPiHoleEnabled statusOutput then Action.cmdDisable else Action.cmdEnable

/-- The steps a shutdown protocol might perform. -/
inductive ShutdownStep
  | setShutdownFlag
  | signalLatch
  | joinWorker
  | unsubscribeEdge
  | releaseSignalSource
deriving DecidableEq

/-- Embeds the `finally` block (lines 197-201), in statement order:
`shutdown = True`; `buttonEvent.set()`;
`GPIO.remove_event_detect(PIN_PUSH_BUTTON)`; `GPIO.cleanup()`.
No join of `buttonHandlerThread` appears in the block. -/
def shutdownSequence : List ShutdownStep :=
  [ShutdownStep.setShutdownFlag, ShutdownStep.signalLatch,
   ShutdownStep.unsubscribeEdge, ShutdownStep.releaseSignalSource]

/-- A sample world: Pi-hole enabled, LED off, no pending press, no shutdown. -/
def idleWorld : World :=
  { piholeEnabled := true, ledOn := false, buttonEvent := false, shutdown := false }

/-- A sample world with a pending button press. -/
def pressedWorld : World :=
  { piholeEnabled := true, ledOn := false, buttonEvent := true, shutdown := false }

/-- A sample world with Pi-hole disabled and a pending button press. -/
def disabledPressedWorld : World :=
  { piholeEnabled := false, ledOn := true, buttonEvent := true, shutdown := false }

/-- A sample world with the shutdown flag already set. -/
def shutdownWorld : World :=
  { piholeEnabled := true, ledOn := false, buttonEvent := true, shutdown := true }

/-- One or more notifications coalesce to a single set flag. -/
theorem notifyN_add_one (n : Nat) (w : World) :
    notifyN (n + 1) w = pushButtonGPIOCallback w := by
  induction n with
  | zero => rfl
  | succ k ih =>
      show pushButtonGPIOCallback (notifyN (k + 1) w) = _
      rw [ih]
      rfl

/-- C1: for every sequence of `n ≥ 1` interrupt notifications
(`pushButtonGPIOCallback`) before a single wait-and-consume, the pending state
equals that after a single notification, the flag is set, and the one worker
cycle consuming it issues exactly one oracle command — presses are coalesced,
never counted. -/
theorem coalescing_single_toggle (n : Nat) (w : World)
    (hn : 1 ≤ n) (hs : w.shutdown = false) :
    notifyN n w = pushButtonGPIOCallback w ∧
    (notifyN n w).buttonEvent = true ∧
    ((workerCycle true (notifyN n w)).2.1.countP isOracleCommand) = 1 := by
  obtain ⟨m, rfl⟩ : ∃ m, n = m + 1 := ⟨n - 1, by omega⟩
  rw [notifyN_add_one]
  rcases w with ⟨pe, led, be, sd⟩
  simp only [World.shutdown] at hs
  subst hs
  cases pe <;> cases led <;> cases be <;> refine ⟨rfl, rfl, by decide⟩

/-- C1 witness: three notifications before one consumption at a concrete
world. -/
theorem coalescing_single_toggle_witness :
    notifyN 3 idleWorld = pushButtonGPIOCallback idleWorld ∧
    (notifyN 3 idleWorld).buttonEvent = true ∧
    ((workerCycle true (notifyN 3 idleWorld)).2.1.countP isOracleCommand) = 1 :=
  coalescing_single_toggle 3 idleWorld (by decide) (by rfl)

/-- C2: the oracle command a worker cycle issues is computed from the fresh
oracle state at consumption time: two worlds agreeing on `piholeEnabled` yield
the same command whatever their other (history) components, and the command is
disable exactly when the fresh state is enabled, enable otherwise. -/
theorem fresh_query_determines_command (wa wb : World) (cmdOk : Bool)
    (ha : wa.shutdown = false) (hb : wb.shutdown = false)
    (hsame : wa.piholeEnabled = wb.piholeEnabled) :
    (workerCycle cmdOk wa).2.1.filter isOracleCommand =
      (workerCycle cmdOk wb).2.1.filter isOracleCommand ∧
    (workerCycle cmdOk wa).2.1.filter isOracleCommand =
      [if wa.piholeEnabled then Action.cmdDisable else Action.cmdEnable] := by
  rcases wa with ⟨pa, la, ba, sa⟩
  rcases wb with ⟨pb, lb, bb, sb⟩
  simp only [World.shutdown] at ha hb
  simp only [World.piholeEnabled] at hsame
  subst ha; subst hb; subst hsame
  cases pa <;> cases la <;> cases ba <;> cases lb <;> cases bb <;> cases cmdOk <;>
    exact ⟨rfl, rfl⟩

/-- C2 witness: same fresh state `Enabled`, different notify-time history,
identical disable command. -/
theorem fresh_query_determines_command_witness :
    (workerCycle true pressedWorld).2.1.filter isOracleCommand =
      (workerCycle true idleWorld).2.1.filter isOracleCommand ∧
    (workerCycle true pressedWorld).2.1.filter isOracleCommand =
      [if pressedWorld.piholeEnabled then Action.cmdDisable else Action.cmdEnable] :=
  fresh_query_determines_command pressedWorld idleWorld true rfl rfl rfl

/-- C3 counterexample: in a concrete worker cycle the trace is query, command,
LED write, and only then `clearFlag` — the flag is not cleared before the
oracle query, contradicting the claim that wait-and-consume atomically clears
the flag before the cycle's work. -/
theorem clear_after_query_counterexample :
    (workerCycle true pressedWorld).2.1 =
      [Action.queryOracle true, Action.cmdDisable, Action.writeLed true, Action.clearFlag] ∧
    clearPrecedesQuery (workerCycle true pressedWorld).2.1 = false := by
  exact ⟨rfl, rfl⟩

/-- C3 amended: in every non-shutdown worker cycle the event flag is cleared
as the last action of the cycle, after the oracle query, command and LED
write, and the flag is indeed clear (and the worker back at waiting) when the
cycle ends. -/
theorem clear_is_last_action (w : World) (cmdOk : Bool)
    (hs : w.shutdown = false) (hb : w.buttonEvent = true) :
    (workerCycle cmdOk w).2.1.getLast? = some Action.clearFlag ∧
    clearPrecedesQuery (workerCycle cmdOk w).2.1 = false ∧
    ((workerCycle cmdOk w).1).buttonEvent = false ∧
    (workerCycle cmdOk w).2.2 = false := by
  rcases w with ⟨pe, led, be, sd⟩
  simp only [World.shutdown, World.buttonEvent] at hs hb
  subst hs; subst hb
  cases pe <;> cases led <;> cases cmdOk <;> exact ⟨rfl, rfl, rfl, rfl⟩

/-- C3 amended witness at a concrete pressed world. -/
theorem clear_is_last_action_witness :
    (workerCycle true disabledPressedWorld).2.1.getLast? = some Action.clearFlag ∧
    clearPrecedesQuery (workerCycle true disabledPressedWorld).2.1 = false ∧
    ((workerCycle true disabledPressedWorld).1).buttonEvent = false ∧
    (workerCycle true disabledPressedWorld).2.2 = false :=
  clear_is_last_action disabledPressedWorld true rfl rfl

/-- C4 counterexample: with Pi-hole disabled, LED on, and a failed
`pihole enable` command, the cycle still writes the LED to the enabled (off)
level: the indicator is written and asserts success although the oracle state
did not change, contradicting "the indicator output is left unwritten". -/
theorem indicator_written_on_failure_counterexample :
    ((workerCycle false disabledPressedWorld).1).piholeEnabled = false ∧
    ((workerCycle false disabledPressedWorld).1).ledOn = false ∧
    Action.writeLed false ∈ (workerCycle false disabledPressedWorld).2.1 := by
  exact ⟨rfl, rfl, by decide⟩

/-- C4 amended: when the enable/disable command fails, the oracle state is
unchanged and the worker returns to waiting without crashing, but the code
ignores the command's exit status and still writes the indicator to the level
of the state it attempted to reach. -/
theorem command_failure_behavior (w : World) (hs : w.shutdown = false) :
    ((workerCycle false w).1).piholeEnabled = w.piholeEnabled ∧
    Action.writeLed w.piholeEnabled ∈ (workerCycle false w).2.1 ∧
    ((workerCycle false w).1).ledOn = w.piholeEnabled ∧
    (workerCycle false w).2.2 = false := by
  rcases w with ⟨pe, led, be, sd⟩
  simp only [World.shutdown] at hs
  subst hs
  cases pe <;> cases led <;> cases be <;> exact ⟨rfl, by decide, rfl, rfl⟩

/-- C4 amended witness at a concrete world. -/
theorem command_failure_behavior_witness :
    ((workerCycle false pressedWorld).1).piholeEnabled = pressedWorld.piholeEnabled ∧
    Action.writeLed pressedWorld.piholeEnabled ∈ (workerCycle false pressedWorld).2.1 ∧
    ((workerCycle false pressedWorld).1).ledOn = pressedWorld.piholeEnabled ∧
    (workerCycle false pressedWorld).2.2 = false :=
  command_failure_behavior pressedWorld rfl

/-- C5 counterexample: with `lastState = Enabled`, a poll tick whose
`pihole status` invocation fails (empty standard output) does not skip
reconciliation: it logs a transition, writes the indicator (LED on), and
updates `lastState` to Disabled; and the worker's toggle on the same failed
fresh query issues the enable command rather than skipping. -/
theorem query_failure_not_skipped_counterexample :
    pollerTickFromOutput { lastState := true, transitions := 0, ledWrites := [] } "" =
      { lastState := false, transitions := 1, ledWrites := [true] } ∧
    toggleDecisionFromOutput "" = Action.cmdEnable := by
  exact ⟨rfl, rfl⟩

/-- C5 amended: the code has no distinct query-failure outcome; any status
output lacking the substring that marks the enabled state (including error or
empty output) is read as Disabled, so the poller reconciles to Disabled
(logging a transition exactly when the previous state was Enabled, writing
the LED on, updating `lastState`), and the worker issues the enable
command. -/
theorem failed_query_read_as_disabled (acc : PollAcc) (out : String)
    (h : isPiHoleEnabled out = false) :
    pollerTickFromOutput acc out =
      { lastState := false
        transitions := acc.transitions + (if acc.lastState then 1 else 0)
        ledWrites := acc.ledWrites ++ [true] } ∧
    toggleDecisionFromOutput out = Action.cmdEnable := by
  constructor
  · show pollerTick acc (isPiHoleEnabled out) = _
    rw [h]
    cases hl : acc.lastState <;> simp [pollerTick, hl, statusLedLevel]
  · show (if isPiHoleEnabled out then Action.cmdDisable else Action.cmdEnable) = _
    rw [h]
    rfl

/-- C5 amended witness: a concrete failed query output. -/
theorem failed_query_read_as_disabled_witness :
    pollerTickFromOutput { lastState := true, transitions := 0, ledWrites := [] }
        "Unable to complete request" =
      { lastState := false
        transitions := (0 : Nat) + (if true then 1 else 0)
        ledWrites := ([] : List Bool) ++ [true] } ∧
    toggleDecisionFromOutput "Unable to complete request" = Action.cmdEnable :=
  failed_query_read_as_disabled
    { lastState := true, transitions := 0, ledWrites := [] }
    "Unable to complete request" (by decide)

/-- C6 counterexample: the claimed protocol joins the Toggle Worker as its
third step, before unsubscribing, but the shutdown sequence of the `finally`
block contains no join of the worker thread at all. -/
theorem no_join_in_shutdown_counterexample :
    ShutdownStep.joinWorker ∉ shutdownSequence := by
  decide

/-- C6 amended: the shutdown protocol performs, in order, (1) set
ShutdownFlag, (2) signal the latch, (3) unsubscribe the edge notifications,
(4) release the signal source; no join/await of the Toggle Worker occurs in
the protocol. -/
theorem shutdown_sequence_order :
    shutdownSequence.indexOf ShutdownStep.setShutdownFlag = 0 ∧
    shutdownSequence.indexOf ShutdownStep.signalLatch = 1 ∧
    shutdownSequence.indexOf ShutdownStep.unsubscribeEdge = 2 ∧
    shutdownSequence.indexOf ShutdownStep.releaseSignalSource = 3 ∧
    shutdownSequence.length = 4 ∧
    ShutdownStep.joinWorker ∉ shutdownSequence := by
  refine ⟨rfl, rfl, rfl, rfl, rfl, by decide⟩

/-- C7: a worker wake that observes the shutdown flag set returns immediately
and terminally: the world is untouched (no oracle query or command, no LED
write, flag not even cleared) and the cycle reports termination. -/
theorem shutdown_wake_terminates (w : World) (cmdOk : Bool)
    (hs : w.shutdown = true) :
    workerCycle cmdOk w = (w, [], true) := by
  simp [workerCycle, hs]

/-- C7 witness at a concrete world with the shutdown flag set. -/
theorem shutdown_wake_terminates_witness :
    workerCycle true shutdownWorld = (shutdownWorld, [], true) :=
  shutdown_wake_terminates shutdownWorld true rfl

/-- C8: the poller over five ticks reading Enabled, Enabled, Disabled,
Disabled, Enabled (after an initial pre-loop read of Enabled) logs exactly two
transitions and writes the LED exactly five times, once per tick, each write
at the level dictated by that tick's fresh read. -/
theorem poller_five_ticks :
    (pollerRun true [true, true, false, false, true]).transitions = 2 ∧
    (pollerRun true [true, true, false, false, true]).ledWrites.length = 5 ∧
    (pollerRun true [true, true, false, false, true]).ledWrites =
      [true, true, false, false, true].map statusLedLevel := by
  exact ⟨rfl, rfl, rfl⟩

/-- C9: two consecutive successful worker cycles (a press consumed, another
press, that press consumed, no command failure, no external interference)
return the oracle state to its original value. -/
theorem double_toggle_roundtrip (w : World) (hs : w.shutdown = false) :
    ((workerCycle true (pushButtonGPIOCallback (workerCycle true w).1)).1).piholeEnabled
      = w.piholeEnabled := by
  rcases w with ⟨pe, led, be, sd⟩
  simp only [World.shutdown] at hs
  subst hs
  cases pe <;> cases led <;> cases be <;> rfl

/-- C9 witness at a concrete world. -/
theorem double_toggle_roundtrip_witness :
    ((workerCycle true (pushButtonGPIOCallback (workerCycle true pressedWorld).1)).1).piholeEnabled
      = pressedWorld.piholeEnabled :=
  double_toggle_roundtrip pressedWorld rfl

/-- `listHasPrefixChars hay sub` decides `sub <+: hay`. -/
theorem listHasPrefixChars_iff (hay sub : List Char) :
    listHasPrefixChars hay sub = true ↔ sub <+: hay := by
  induction hay generalizing sub with
  | nil =>
      cases sub with
      | nil => simp [listHasPrefixChars]
      | cons d ds => simp [listHasPrefixChars]
  | cons c cs ih =>
      cases sub with
      | nil => simp [listHasPrefixChars]
      | cons d ds =>
          simp only [listHasPrefixChars, Bool.and_eq_true, beq_iff_eq, ih,
            List.cons_prefix_cons]
          constructor
          · rintro ⟨hcd, hp⟩
            exact ⟨hcd.symm, hp⟩
          · rintro ⟨hdc, hp⟩
            exact ⟨hdc.symm, hp⟩

/-- `pyInChars hay sub` decides `sub <:+: hay`. -/
theorem pyInChars_iff (hay sub : List Char) :
    pyInChars hay sub = true ↔ sub <:+: hay := by
  induction hay with
  | nil =>
      cases sub with
      | nil => simp [pyInChars, listHasPrefixChars]
      | cons d ds => simp [pyInChars, listHasPrefixChars]
  | cons c cs ih =>
      simp [pyInChars, listHasPrefixChars_iff, ih, List.infix_cons_iff]

/-- C10: `isPiHoleEnabled` returns `true` exactly when the substring
`"Enabled"` occurs in the status command's standard output, and `false` for
every other output — there is no distinct failure outcome. -/
theorem isPiHoleEnabled_status_substring (out : String) :
    (isPiHoleEnabled out = true ↔ "Enabled".toList <:+: out.toList) ∧
    (isPiHoleEnabled out = false ↔ ¬ "Enabled".toList <:+: out.toList) := by
  have h := pyInChars_iff out.toList "Enabled".toList
  refine ⟨h, ?_, ?_⟩
  · intro hf hcontra
    have ht : isPiHoleEnabled out = true := h.mpr hcontra
    rw [hf] at ht
    cases ht
  · intro hn
    cases hb : isPiHoleEnabled out
    · rfl
    · exact absurd (h.mp hb) hn

end PiHoleControl
